import Mathlib

/-!
Verification of the wid-captcha server-side verification dispatcher and
client-side state reconciler, modelled as a shallow embedding of the
TypeScript source in src/app/api/verify-captcha/route.ts and
src/wid-captcha-context.tsx.

Remote services (the World ID developer portal, the reCAPTCHA and hCaptcha
siteverify endpoints, and the fetch transport itself) are modelled as
oracle parameters of type Except String _, where the error case stands for
a thrown network or JSON-parse exception carrying its message, and the ok
case carries the parsed response. JavaScript truthiness on optional
strings and JSON values is modelled explicitly.
-/

namespace WidCaptcha

/-- Truthiness of an optional string, as JavaScript sees a value that is
either undefined (none) or a string: undefined and the empty string are
falsy, every other string is truthy. -/
def optTruthy : Option String → Bool
  | none => false
  | some s => s != ""

/-- The JavaScript expression a OR b (logical or) for an optional string a
and a string default b: the default is used when a is undefined or empty. -/
def jsOr (a : Option String) (b : String) : String :=
  match a with
  | none => b
  | some s => if s == "" then b else s

/-- A small universe of JSON/JavaScript values, enough to express the
truthiness distinctions the source relies on for the siteverify field
named success. -/
inductive JsValue where
  | undef
  | nullv
  | bool (b : Bool)
  | num (n : Int)
  | str (s : String)
  | arr
  | obj
deriving DecidableEq, Repr

/-- JavaScript truthiness of a JsValue: undefined, null, false, 0 and the
empty string are falsy; arrays and objects are truthy. -/
def JsValue.truthy : JsValue → Bool
  | .undef => false
  | .nullv => false
  | .bool b => b
  | .num n => n != 0
  | .str s => s != ""
  | .arr => true
  | .obj => true

/-- Substring containment on strings, used to state that a failure message
carries a provider-supplied detail. -/
def strContains (s sub : String) : Prop := ∃ a b, s = a ++ sub ++ b

/-- The proof payload shape produced by the IDKit widget, as declared in
the route (interface IDKitResponse). -/
structure IDKitResponse where
  merkle_root : String
  nullifier_hash : String
  proof : String
  credential_type : String
  signal : Option String
deriving DecidableEq, Repr

/-- The parsed JSON body of a CAPTCHA siteverify response: the field named
success (an arbitrary JSON value, since the source branches on it) and the
optional array field named error-codes. -/
structure SiteverifyBody where
  success : JsValue
  errorCodes : Option (List String)
deriving DecidableEq, Repr

/-- Normalized result of one adapter run: the [success, message] tuple the
source returns, plus an instrumentation flag recording whether the remote
siteverify / verify endpoint was actually contacted on this run. -/
structure AdapterOutcome where
  success : Bool
  message : String
  remoteCalled : Bool
deriving DecidableEq, Repr

/-- Server configuration, the environment variables the route reads at
module load. A value of none models an unset variable. -/
structure Config where
  wldAppId : Option String
  wldActionId : Option String
  captchaProviderEnv : Option String
  recaptchaSecretKey : Option String
  hcaptchaSecretKey : Option String
  primaryVerifierEnv : Option String
deriving DecidableEq, Repr

/-- The effective CAPTCHA provider string: the environment value with the
JavaScript default of recaptcha (route.ts line 13). -/
def CAPTCHA_PROVIDER (c : Config) : String := jsOr c.captchaProviderEnv "recaptcha"

/-- The effective primary-verifier priority string: the environment value
with the JavaScript default of worldid (route.ts line 25). -/
def PRIMARY_VERIFIER (c : Config) : String := jsOr c.primaryVerifierEnv "worldid"

/-- Embedding of verifyWorldID (route.ts lines 75 to 121). The remote
oracle gives either a thrown exception message or the pair of HTTP status
and the optional detail field of the parsed response body. -/
def verifyWorldID (appId actionId : Option String) (idkitResponse : Option IDKitResponse)
    (remote : Except String (Nat × Option String)) : AdapterOutcome :=
  match idkitResponse with
  | none =>
    { success := false
      message := "World ID proof (idkit_response) not provided in request body."
      remoteCalled := false }
  | some _ =>
    if !optTruthy appId || !optTruthy actionId then
      { success := false
        message := "World ID environment variables (NEXT_PUBLIC_WLD_APP_ID, NEXT_PUBLIC_WLD_ACTION_ID) not configured on the server."
        remoteCalled := false }
    else
      match remote with
      | .error m =>
        { success := false, message := "API Connection Error: " ++ m, remoteCalled := true }
      | .ok (status, detail) =>
        if 200 ≤ status ∧ status < 300 then
          { success := true, message := "World ID verification successful.", remoteCalled := true }
        else
          { success := false
            message := "World ID Verification Failed: " ++
              jsOr detail ("Verification failed with status " ++ toString status)
            remoteCalled := true }

/-- Embedding of verifyRecaptcha (route.ts lines 136 to 173). Note the
source tests the parsed field success for truthiness, not for strict
equality with true. -/
def verifyRecaptcha (secretKey : Option String) (token : Option String)
    (remote : Except String SiteverifyBody) : AdapterOutcome :=
  if !optTruthy token then
    { success := false, message := "reCAPTCHA token not provided in request body.", remoteCalled := false }
  else if !optTruthy secretKey then
    { success := false
      message := "reCAPTCHA Secret Key (RECAPTCHA_SECRET_KEY) not configured on the server."
      remoteCalled := false }
  else
    match remote with
    | .error m =>
      { success := false, message := "API Connection Error: " ++ m, remoteCalled := true }
    | .ok result =>
      if result.success.truthy then
        { success := true, message := "reCAPTCHA verification successful.", remoteCalled := true }
      else
        { success := false
          message := "reCAPTCHA Verification Failed: " ++
            String.intercalate ", " (result.errorCodes.getD ["unknown"])
          remoteCalled := true }

/-- Embedding of verifyHCaptcha (route.ts lines 183 to 227). Here the
source tests the parsed field success for strict equality with true. -/
def verifyHCaptcha (secretKey : Option String) (token : Option String)
    (remote : Except String SiteverifyBody) : AdapterOutcome :=
  if !optTruthy token then
    { success := false, message := "hCaptcha token not provided in request body.", remoteCalled := false }
  else if !optTruthy secretKey then
    { success := false
      message := "hCaptcha Secret Key (HCAPTCHA_SECRET_KEY) not configured on the server."
      remoteCalled := false }
  else
    match remote with
    | .error m =>
      { success := false, message := "API Connection Error: " ++ m, remoteCalled := true }
    | .ok result =>
      if result.success == JsValue.bool true then
        { success := true, message := "hCaptcha verification successful.", remoteCalled := true }
      else
        { success := false
          message := "hCaptcha Verification Failed: " ++
            String.intercalate ", " (result.errorCodes.getD ["unknown"])
          remoteCalled := true }

/-- An adapter identity, used to instrument which verifier functions the
dispatcher invokes on a given request. -/
inductive AdapterTag where
  | worldid
  | captcha
deriving DecidableEq, Repr

/-- The request body after JSON parsing: the two optional payloads the
route extracts (route.ts lines 250 to 251). -/
structure RequestData where
  idkit_response : Option IDKitResponse
  captcha_token : Option String
deriving DecidableEq, Repr

/-- The JSON response the route hands back, together with its HTTP status
(the fields NextResponse.json receives). -/
structure ApiResponse where
  status : Nat
  success : Bool
  message : Option String
  error : Option String
  method : Option String
deriving DecidableEq, Repr

/-- The primary adapter selected by the configured priority (route.ts
lines 272 to 290): captcha exactly when the priority string is captcha,
World ID otherwise (including for invalid priority strings). -/
def primaryTagOf (c : Config) : AdapterTag :=
  if PRIMARY_VERIFIER c == "captcha" then .captcha else .worldid

/-- The fallback adapter selected by the configured priority: the opposite
of the primary. -/
def fallbackTagOf (c : Config) : AdapterTag :=
  if PRIMARY_VERIFIER c == "captcha" then .worldid else .captcha

/-- Presence (JavaScript truthiness) of the payload belonging to an
adapter: the proof object for World ID, the token string for CAPTCHA. -/
def presentOf (req : RequestData) : AdapterTag → Bool
  | .worldid => req.idkit_response.isSome
  | .captcha => optTruthy req.captcha_token

/-- The human-readable method name the route associates with an adapter
(route.ts lines 261 to 263). -/
def methodNameOf (c : Config) : AdapterTag → String
  | .worldid => "World ID"
  | .captcha => if CAPTCHA_PROVIDER c == "hcaptcha" then "hCaptcha" else "reCAPTCHA"

/-- The method string placed in the response for a given method name
(route.ts lines 298, 313, 318, 328). -/
def methodFor (c : Config) (methodName : String) : String :=
  if methodName == "World ID" then "world_id" else CAPTCHA_PROVIDER c

/-- What running a given adapter on this request yields, given the two
remote oracles: the World ID verify endpoint oracle wr and the siteverify
oracle cr. The CAPTCHA side selects verifyHCaptcha or verifyRecaptcha by
the configured provider (route.ts line 260). -/
def outcomeOf (c : Config) (req : RequestData)
    (wr : Except String (Nat × Option String)) (cr : Except String SiteverifyBody) :
    AdapterTag → AdapterOutcome
  | .worldid => verifyWorldID c.wldAppId c.wldActionId req.idkit_response wr
  | .captcha =>
    if CAPTCHA_PROVIDER c == "hcaptcha" then verifyHCaptcha c.hcaptchaSecretKey req.captcha_token cr
    else verifyRecaptcha c.recaptchaSecretKey req.captcha_token cr

/-- The shared primary-then-fallback control flow of the route handler
(route.ts lines 292 to 332), parameterized by the already-selected primary
and fallback data. Returns the response together with the list of adapter
invocations performed, in order. -/
def dispatchWith (c : Config) (pOut : AdapterOutcome) (pPres : Bool) (pName : String)
    (fOut : AdapterOutcome) (fPres : Bool) (fName : String)
    (pTag fTag : AdapterTag) : ApiResponse × List AdapterTag :=
  if pPres then
    if pOut.success then
      ({ status := 200, success := true, message := some pOut.message, error := none,
         method := some (methodFor c pName) }, [pTag])
    else if fPres then
      if fOut.success then
        ({ status := 200, success := true, message := some fOut.message, error := none,
           method := some (methodFor c fName) }, [pTag, fTag])
      else
        ({ status := 400, success := false, message := none,
           error := some ("Verification Failed: " ++ fOut.message),
           method := some (methodFor c fName) }, [pTag, fTag])
    else
      ({ status := 400, success := false, message := none,
         error := some ("Verification Failed: Primary method (" ++ pName ++ ") failed."),
         method := some (methodFor c pName) }, [pTag])
  else if fPres then
    if fOut.success then
      ({ status := 200, success := true, message := some fOut.message, error := none,
         method := some (methodFor c fName) }, [fTag])
    else
      ({ status := 400, success := false, message := none,
         error := some ("Verification Failed: " ++ fOut.message),
         method := some (methodFor c fName) }, [fTag])
  else
    ({ status := 400, success := false, message := none,
       error := some "No verification payload (idkit_response or captcha_token) provided in the request.",
       method := none }, [])

/-- The verification dispatcher: primary/fallback selection by priority
followed by the shared control flow. -/
def dispatch (c : Config) (req : RequestData)
    (wr : Except String (Nat × Option String)) (cr : Except String SiteverifyBody) :
    ApiResponse × List AdapterTag :=
  dispatchWith c
    (outcomeOf c req wr cr (primaryTagOf c)) (presentOf req (primaryTagOf c))
    (methodNameOf c (primaryTagOf c))
    (outcomeOf c req wr cr (fallbackTagOf c)) (presentOf req (fallbackTagOf c))
    (methodNameOf c (fallbackTagOf c))
    (primaryTagOf c) (fallbackTagOf c)

/-- The full POST handler (route.ts lines 238 to 340): the body parse with
its 400 on invalid JSON, the dispatcher, and the outer catch that converts
any residual exception raised in the handler logic (modelled by the
residualError parameter) into a 500 response. -/
def POST (c : Config) (body : Except String RequestData)
    (wr : Except String (Nat × Option String)) (cr : Except String SiteverifyBody)
    (residualError : Option String) : ApiResponse × List AdapterTag :=
  match residualError with
  | some m =>
    ({ status := 500, success := false, message := none,
       error := some ("Internal Server Error: " ++ m), method := none }, [])
  | none =>
    match body with
    | .error _ =>
      ({ status := 400, success := false, message := none,
         error := some "Invalid JSON payload", method := none }, [])
    | .ok data => dispatch c data wr cr

/-- The reconciler state held by the client provider
(wid-captcha-context.tsx lines 71 to 74); the error field holds the
message of the stored Error object, none for null. -/
structure ClientState where
  isVerified : Bool
  isVerifying : Bool
  verificationMethod : String
  error : Option String
deriving DecidableEq, Repr

/-- The response shape the client parses from the dispatcher
(interface ApiVerificationResponse). -/
structure ApiVerificationResponse where
  success : Bool
  message : Option String
  error : Option String
  method : Option String
deriving DecidableEq, Repr

/-- The VerificationResult value callVerificationApi returns to its
caller; data holds the message string. -/
structure VerificationResult where
  success : Bool
  method : String
  data : String
deriving DecidableEq, Repr

/-- The payload argument of callVerificationApi. -/
structure ClientPayload where
  idkit_response : Option IDKitResponse
  captcha_token : Option String
deriving DecidableEq, Repr

/-- Embedding of callVerificationApi (wid-captcha-context.tsx lines 170 to
245) as a state transition: given the client-side provider string, the
payload, the fetch oracle (exception message, or HTTP status with parsed
response), and the state before the call, it returns the state after the
call together with the returned VerificationResult. The finally clause
clearing isVerifying is reflected on every path through the try block. -/
def callVerificationApi (cp : String) (payload : ClientPayload)
    (fetchOutcome : Except String (Nat × ApiVerificationResponse))
    (s : ClientState) : ClientState × VerificationResult :=
  let s1 : ClientState := { s with isVerifying := true, error := none }
  if !payload.idkit_response.isSome && !optTruthy payload.captcha_token then
    let msg := "No verification payload (idkit_response or captcha_token) provided to callVerificationApi"
    ({ s1 with error := some msg, isVerifying := false },
     { success := false, method := "none", data := msg })
  else
    match fetchOutcome with
    | .error m =>
      ({ s1 with
          error := some m
          verificationMethod := "none"
          isVerified := false
          isVerifying := false },
       { success := false, method := "none", data := m })
    | .ok (status, result) =>
      if (200 ≤ status ∧ status < 300) ∧ result.success = true then
        let method := jsOr result.method
          (if payload.idkit_response.isSome then "world_id" else cp)
        ({ s1 with verificationMethod := method, isVerified := true, isVerifying := false },
         { success := true, method := method, data := jsOr result.message "Verification successful" })
      else
        let msg := jsOr result.error
          (jsOr result.message ("Verification failed with status " ++ toString status))
        ({ s1 with
            error := some msg
            verificationMethod := "none"
            isVerified := false
            isVerifying := false },
         { success := false, method := "none", data := msg })

/-- The primary and fallback adapter tags are always distinct. -/
theorem tagOf_ne (c : Config) : primaryTagOf c ≠ fallbackTagOf c := by
  unfold primaryTagOf fallbackTagOf
  by_cases h : (PRIMARY_VERIFIER c == "captcha") = true <;> simp [h]

/-- When the primary payload is present and its adapter succeeds, the
shared control flow returns the primary success response and only the
primary invocation happened. -/
theorem dispatchWith_primary_success (c : Config) (pOut : AdapterOutcome) (pPres : Bool)
    (pName : String) (fOut : AdapterOutcome) (fPres : Bool) (fName : String)
    (pTag fTag : AdapterTag) (hp : pPres = true) (hs : pOut.success = true) :
    dispatchWith c pOut pPres pName fOut fPres fName pTag fTag =
      ({ status := 200, success := true, message := some pOut.message, error := none,
         method := some (methodFor c pName) }, [pTag]) := by
  subst hp
  simp [dispatchWith, hs]

/-- When the fallback payload is present and the primary is absent or
failed, the shared control flow runs the fallback and returns its result
verbatim: its success response, or a 400 carrying its message. -/
theorem dispatchWith_fallback_run (c : Config) (pOut : AdapterOutcome) (pPres : Bool)
    (pName : String) (fOut : AdapterOutcome) (fPres : Bool) (fName : String)
    (pTag fTag : AdapterTag) (hf : fPres = true)
    (h : pPres = false ∨ pOut.success = false) :
    dispatchWith c pOut pPres pName fOut fPres fName pTag fTag =
      (if fOut.success then
         { status := 200, success := true, message := some fOut.message, error := none,
           method := some (methodFor c fName) }
       else
         { status := 400, success := false, message := none,
           error := some ("Verification Failed: " ++ fOut.message),
           method := some (methodFor c fName) },
       if pPres then [pTag, fTag] else [fTag]) := by
  subst hf
  rcases h with h | h
  · subst h
    cases hfo : fOut.success <;> simp [dispatchWith, hfo]
  · cases hp : pPres
    · cases hfo : fOut.success <;> simp [dispatchWith, hfo]
    · cases hfo : fOut.success <;> simp [dispatchWith, h, hfo]

/-- When the primary payload is present and fails and no fallback payload
exists, the shared control flow returns the primary-failed 400 response. -/
theorem dispatchWith_primary_failed_no_fallback (c : Config) (pOut : AdapterOutcome)
    (pPres : Bool) (pName : String) (fOut : AdapterOutcome) (fPres : Bool) (fName : String)
    (pTag fTag : AdapterTag) (hp : pPres = true) (hf : fPres = false)
    (hs : pOut.success = false) :
    dispatchWith c pOut pPres pName fOut fPres fName pTag fTag =
      ({ status := 400, success := false, message := none,
         error := some ("Verification Failed: Primary method (" ++ pName ++ ") failed."),
         method := some (methodFor c pName) }, [pTag]) := by
  subst hp; subst hf
  simp [dispatchWith, hs]

/-- When neither payload is present, the shared control flow returns the
no-payload 400 response without any invocation. -/
theorem dispatchWith_no_payload (c : Config) (pOut : AdapterOutcome) (pPres : Bool)
    (pName : String) (fOut : AdapterOutcome) (fPres : Bool) (fName : String)
    (pTag fTag : AdapterTag) (hp : pPres = false) (hf : fPres = false) :
    dispatchWith c pOut pPres pName fOut fPres fName pTag fTag =
      ({ status := 400, success := false, message := none,
         error := some "No verification payload (idkit_response or captcha_token) provided in the request.",
         method := none }, []) := by
  subst hp; subst hf
  simp [dispatchWith]

/-- A server configuration with all keys set and both selector variables
unset, so the defaults apply: provider recaptcha, priority worldid. -/
def cfgA : Config :=
  { wldAppId := some "app_staging_123"
    wldActionId := some "verify-human"
    captchaProviderEnv := none
    recaptchaSecretKey := some "rc-secret"
    hcaptchaSecretKey := some "hc-secret"
    primaryVerifierEnv := none }

/-- A concrete well-formed proof payload. -/
def idkA : IDKitResponse :=
  { merkle_root := "0xmr", nullifier_hash := "0xnh", proof := "0xpf"
    credential_type := "orb", signal := none }

/-- A request carrying only the proof payload. -/
def reqA : RequestData := { idkit_response := some idkA, captcha_token := none }

/-- A request carrying both a proof payload and a CAPTCHA token. -/
def reqBoth : RequestData := { idkit_response := some idkA, captcha_token := some "tok-1" }

/-- A request carrying neither payload. -/
def reqNone : RequestData := { idkit_response := none, captcha_token := none }

/-- C1: if the payload of the adapter selected as primary is present and
that adapter reports success, the dispatcher returns a success response
tagged with the primary method, carrying the primary message, and the
invocation trace is exactly the primary adapter, so the fallback adapter
is never invoked. -/
theorem dispatch_primary_success_skips_fallback (c : Config) (req : RequestData)
    (wr : Except String (Nat × Option String)) (cr : Except String SiteverifyBody)
    (hp : presentOf req (primaryTagOf c) = true)
    (hs : (outcomeOf c req wr cr (primaryTagOf c)).success = true) :
    (dispatch c req wr cr).1.success = true ∧
    (dispatch c req wr cr).1.status = 200 ∧
    (dispatch c req wr cr).1.method = some (methodFor c (methodNameOf c (primaryTagOf c))) ∧
    (dispatch c req wr cr).1.message = some (outcomeOf c req wr cr (primaryTagOf c)).message ∧
    (dispatch c req wr cr).2 = [primaryTagOf c] ∧
    fallbackTagOf c ∉ (dispatch c req wr cr).2 := by
  have hd := dispatchWith_primary_success c
    (outcomeOf c req wr cr (primaryTagOf c)) (presentOf req (primaryTagOf c))
    (methodNameOf c (primaryTagOf c))
    (outcomeOf c req wr cr (fallbackTagOf c)) (presentOf req (fallbackTagOf c))
    (methodNameOf c (fallbackTagOf c))
    (primaryTagOf c) (fallbackTagOf c) hp hs
  unfold dispatch
  rw [hd]
  refine ⟨rfl, rfl, rfl, rfl, rfl, ?_⟩
  simp only [List.mem_singleton]
  exact fun hEq => tagOf_ne c hEq.symm

/-- C1 witness: under the default identity-first configuration, with a
proof payload the identity provider accepts (HTTP 200), the result is a
success tagged world_id and the CAPTCHA adapter is not invoked. -/
theorem dispatch_primary_success_skips_fallback_witness :
    (dispatch cfgA reqA (.ok (200, none)) (.error "captcha transport down")).1.success = true ∧
    (dispatch cfgA reqA (.ok (200, none)) (.error "captcha transport down")).1.method = some "world_id" ∧
    (dispatch cfgA reqA (.ok (200, none)) (.error "captcha transport down")).2 = [AdapterTag.worldid] ∧
    AdapterTag.captcha ∉ (dispatch cfgA reqA (.ok (200, none)) (.error "captcha transport down")).2 := by
  have h := dispatch_primary_success_skips_fallback cfgA reqA (.ok (200, none))
    (.error "captcha transport down") (by decide) (by decide)
  exact ⟨h.1, by decide, by decide, by decide⟩

/-- C2: if the primary payload is absent or its adapter failed and the
fallback payload is present, the dispatcher invokes the fallback adapter
exactly once, never re-attempts the primary, and returns the fallback
result verbatim tagged with the fallback method: a 200 success carrying
its message when it succeeds, otherwise a 400 failure carrying its
message. -/
theorem dispatch_fallback_verbatim (c : Config) (req : RequestData)
    (wr : Except String (Nat × Option String)) (cr : Except String SiteverifyBody)
    (hf : presentOf req (fallbackTagOf c) = true)
    (h : presentOf req (primaryTagOf c) = false ∨
         (outcomeOf c req wr cr (primaryTagOf c)).success = false) :
    (dispatch c req wr cr).2.count (fallbackTagOf c) = 1 ∧
    (dispatch c req wr cr).2.count (primaryTagOf c) ≤ 1 ∧
    ((outcomeOf c req wr cr (fallbackTagOf c)).success = true →
      (dispatch c req wr cr).1 =
        { status := 200, success := true
          message := some (outcomeOf c req wr cr (fallbackTagOf c)).message
          error := none
          method := some (methodFor c (methodNameOf c (fallbackTagOf c))) }) ∧
    ((outcomeOf c req wr cr (fallbackTagOf c)).success = false →
      (dispatch c req wr cr).1 =
        { status := 400, success := false, message := none
          error := some ("Verification Failed: " ++ (outcomeOf c req wr cr (fallbackTagOf c)).message)
          method := some (methodFor c (methodNameOf c (fallbackTagOf c))) }) := by
  have hd := dispatchWith_fallback_run c
    (outcomeOf c req wr cr (primaryTagOf c)) (presentOf req (primaryTagOf c))
    (methodNameOf c (primaryTagOf c))
    (outcomeOf c req wr cr (fallbackTagOf c)) (presentOf req (fallbackTagOf c))
    (methodNameOf c (fallbackTagOf c))
    (primaryTagOf c) (fallbackTagOf c) hf h
  have hne := tagOf_ne c
  unfold dispatch
  rw [hd]
  refine ⟨?_, ?_, ?_, ?_⟩
  · cases hp : presentOf req (primaryTagOf c) <;>
      simp [List.count_cons, hne, Ne.symm hne]
  · cases hp : presentOf req (primaryTagOf c) <;>
      simp [List.count_cons, hne, Ne.symm hne]
  · intro hfs; simp [hfs]
  · intro hfs; simp [hfs]

/-- C2 witness: identity-first configuration, proof rejected by the
identity provider (HTTP 400), token present and accepted by the reCAPTCHA
siteverify endpoint: the CAPTCHA adapter runs exactly once and its success
is returned tagged recaptcha. -/
theorem dispatch_fallback_verbatim_witness :
    (dispatch cfgA reqBoth (.ok (400, some "invalid proof")) (.ok ⟨.bool true, none⟩)).2.count AdapterTag.captcha = 1 ∧
    (dispatch cfgA reqBoth (.ok (400, some "invalid proof")) (.ok ⟨.bool true, none⟩)).2.count AdapterTag.worldid ≤ 1 ∧
    (dispatch cfgA reqBoth (.ok (400, some "invalid proof")) (.ok ⟨.bool true, none⟩)).1 =
      { status := 200, success := true, message := some "reCAPTCHA verification successful."
        error := none, method := some "recaptcha" } := by
  have h := dispatch_fallback_verbatim cfgA reqBoth (.ok (400, some "invalid proof"))
    (.ok ⟨.bool true, none⟩) (by decide) (Or.inr (by decide))
  exact ⟨by decide, by decide, by decide⟩

/-- C3: when neither a truthy proof payload nor a truthy CAPTCHA token is
present, the dispatcher invokes no adapter and returns the distinct
no-payload 400 failure. -/
theorem dispatch_no_payload_rejected (c : Config) (req : RequestData)
    (wr : Except String (Nat × Option String)) (cr : Except String SiteverifyBody)
    (h1 : req.idkit_response.isSome = false)
    (h2 : optTruthy req.captcha_token = false) :
    dispatch c req wr cr =
      ({ status := 400, success := false, message := none
         error := some "No verification payload (idkit_response or captcha_token) provided in the request."
         method := none }, []) := by
  have hp : ∀ t, presentOf req t = false := by
    intro t
    cases t
    · exact h1
    · exact h2
  unfold dispatch
  exact dispatchWith_no_payload c _ _ _ _ _ _ _ _ (hp _) (hp _)

/-- C3 witness: the empty request under the default configuration yields
the no-payload 400 response and an empty invocation trace. -/
theorem dispatch_no_payload_rejected_witness :
    dispatch cfgA reqNone (.error "unused") (.error "unused") =
      ({ status := 400, success := false, message := none
         error := some "No verification payload (idkit_response or captcha_token) provided in the request."
         method := none }, []) := by
  exact dispatch_no_payload_rejected cfgA reqNone (.error "unused") (.error "unused")
    (by decide) (by decide)

/-- C4 counterexample: a proof payload whose every field is the empty
string is still forwarded to the remote identity provider. The adapter
does not return the local proof-not-provided failure and the remote call
happens, refuting the claim that missing or empty proof fields cause an
immediate local failure without a remote HTTP call. -/
theorem worldid_field_check_cex :
    (verifyWorldID (some "app_staging_123") (some "verify-human")
      (some { merkle_root := "", nullifier_hash := "", proof := ""
              credential_type := "", signal := none })
      (.ok (400, none))).remoteCalled = true ∧
    (verifyWorldID (some "app_staging_123") (some "verify-human")
      (some { merkle_root := "", nullifier_hash := "", proof := ""
              credential_type := "", signal := none })
      (.ok (400, none))).message ≠
      "World ID proof (idkit_response) not provided in request body." := by
  decide

/-- C4 (amended): the World ID adapter returns the immediate local
proof-not-provided failure without a remote call exactly when the payload
object itself is absent; it never inspects the individual proof fields, so
whenever a payload object is present and the server environment variables
are configured, the remote call is made regardless of field contents. -/
theorem worldid_presence_only_check (appId actionId : Option String)
    (remote : Except String (Nat × Option String)) (r : IDKitResponse)
    (ha : optTruthy appId = true) (hb : optTruthy actionId = true) :
    ((verifyWorldID appId actionId none remote).remoteCalled = false ∧
     (verifyWorldID appId actionId none remote).success = false ∧
     (verifyWorldID appId actionId none remote).message =
       "World ID proof (idkit_response) not provided in request body.") ∧
    (verifyWorldID appId actionId (some r) remote).remoteCalled = true := by
  constructor
  · exact ⟨rfl, rfl, rfl⟩
  · cases remote with
    | error m =>
      unfold verifyWorldID
      simp [ha, hb]
    | ok p =>
      obtain ⟨status, detail⟩ := p
      unfold verifyWorldID
      by_cases hst : 200 ≤ status ∧ status < 300 <;> simp [ha, hb, hst]

/-- C4 amended witness: with configured environment, the absent payload
fails locally with no remote call, while a payload of empty fields causes
the remote call. -/
theorem worldid_presence_only_check_witness :
    ((verifyWorldID (some "app_staging_123") (some "verify-human") none
        (.ok (200, none))).remoteCalled = false ∧
     (verifyWorldID (some "app_staging_123") (some "verify-human") none
        (.ok (200, none))).success = false ∧
     (verifyWorldID (some "app_staging_123") (some "verify-human") none
        (.ok (200, none))).message =
       "World ID proof (idkit_response) not provided in request body.") ∧
    (verifyWorldID (some "app_staging_123") (some "verify-human")
      (some { merkle_root := "", nullifier_hash := "", proof := ""
              credential_type := "", signal := none })
      (.ok (200, none))).remoteCalled = true := by
  exact worldid_presence_only_check (some "app_staging_123") (some "verify-human")
    (.ok (200, none))
    { merkle_root := "", nullifier_hash := "", proof := ""
      credential_type := "", signal := none }
    (by decide) (by decide)

/-- C5: no adapter propagates an exception past its own boundary: a thrown
transport or JSON-parse exception, modelled as the error case of the
remote oracle, is converted into a failure result whose message carries
the exception message; and the handler converts any residual exception
into a 500 response. -/
theorem no_exception_past_boundary :
    (∀ (secret token : Option String) (m : String),
       optTruthy token = true → optTruthy secret = true →
       verifyRecaptcha secret token (.error m) =
         { success := false, message := "API Connection Error: " ++ m, remoteCalled := true }) ∧
    (∀ (secret token : Option String) (m : String),
       optTruthy token = true → optTruthy secret = true →
       verifyHCaptcha secret token (.error m) =
         { success := false, message := "API Connection Error: " ++ m, remoteCalled := true }) ∧
    (∀ (appId actionId : Option String) (r : IDKitResponse) (m : String),
       optTruthy appId = true → optTruthy actionId = true →
       verifyWorldID appId actionId (some r) (.error m) =
         { success := false, message := "API Connection Error: " ++ m, remoteCalled := true }) ∧
    (∀ (c : Config) (body : Except String RequestData)
       (wr : Except String (Nat × Option String)) (cr : Except String SiteverifyBody)
       (m : String),
       (POST c body wr cr (some m)).1 =
         { status := 500, success := false, message := none
           error := some ("Internal Server Error: " ++ m), method := none }) := by
  refine ⟨?_, ?_, ?_, ?_⟩
  · intro secret token m ht hs
    unfold verifyRecaptcha
    simp [ht, hs]
  · intro secret token m ht hs
    unfold verifyHCaptcha
    simp [ht, hs]
  · intro appId actionId r m ha hb
    unfold verifyWorldID
    simp [ha, hb]
  · intro c body wr cr m
    rfl

/-- C5 witness: concrete instances of each conversion. -/
theorem no_exception_past_boundary_witness :
    verifyRecaptcha (some "rc-secret") (some "tok-1") (.error "fetch failed") =
      { success := false, message := "API Connection Error: fetch failed", remoteCalled := true } ∧
    verifyHCaptcha (some "hc-secret") (some "tok-1") (.error "fetch failed") =
      { success := false, message := "API Connection Error: fetch failed", remoteCalled := true } ∧
    verifyWorldID (some "app_staging_123") (some "verify-human") (some idkA) (.error "fetch failed") =
      { success := false, message := "API Connection Error: fetch failed", remoteCalled := true } ∧
    (POST cfgA (.ok reqA) (.ok (200, none)) (.error "unused") (some "boom")).1 =
      { status := 500, success := false, message := none
        error := some "Internal Server Error: boom", method := none } := by
  have h := no_exception_past_boundary
  exact ⟨h.1 (some "rc-secret") (some "tok-1") "fetch failed" (by decide) (by decide),
    h.2.1 (some "hc-secret") (some "tok-1") "fetch failed" (by decide) (by decide),
    h.2.2.1 (some "app_staging_123") (some "verify-human") idkA "fetch failed" (by decide) (by decide),
    h.2.2.2 cfgA (.ok reqA) (.ok (200, none)) (.error "unused") "boom"⟩

/-- If the primary adapter is World ID then the fallback adapter is the
CAPTCHA one. -/
theorem fallback_captcha_of_primary_worldid (c : Config)
    (h : primaryTagOf c = AdapterTag.worldid) :
    fallbackTagOf c = AdapterTag.captcha := by
  unfold primaryTagOf at h
  unfold fallbackTagOf
  by_cases hc : (PRIMARY_VERIFIER c == "captcha") = true
  · rw [if_pos hc] at h
    exact absurd h (by decide)
  · rw [if_neg hc]

/-- C6: on a non-2xx identity-provider response, the World ID adapter
fails with a message formed from the detail field of the body when truthy,
or a generic status-derived message otherwise, and the message contains
the detail whenever it is present; and when the primary World ID payload
was present and failed with no fallback payload, the dispatcher responds
400 with an error ending in the primary-failed phrase, tagged world_id. -/
theorem worldid_detail_and_primary_failed :
    (∀ (appId actionId : Option String) (r : IDKitResponse) (status : Nat)
       (detail : Option String),
       optTruthy appId = true → optTruthy actionId = true →
       ¬(200 ≤ status ∧ status < 300) →
       ((verifyWorldID appId actionId (some r) (.ok (status, detail))).success = false ∧
        (verifyWorldID appId actionId (some r) (.ok (status, detail))).message =
          "World ID Verification Failed: " ++
            jsOr detail ("Verification failed with status " ++ toString status) ∧
        (∀ d, detail = some d →
          strContains (verifyWorldID appId actionId (some r) (.ok (status, detail))).message d))) ∧
    (∀ (c : Config) (req : RequestData) (wr : Except String (Nat × Option String))
       (cr : Except String SiteverifyBody),
       primaryTagOf c = AdapterTag.worldid →
       presentOf req AdapterTag.worldid = true →
       presentOf req AdapterTag.captcha = false →
       (outcomeOf c req wr cr AdapterTag.worldid).success = false →
       ((dispatch c req wr cr).1.status = 400 ∧
        (dispatch c req wr cr).1.success = false ∧
        (dispatch c req wr cr).1.error =
          some "Verification Failed: Primary method (World ID) failed." ∧
        (dispatch c req wr cr).1.method = some "world_id" ∧
        ∃ a, "Verification Failed: Primary method (World ID) failed." =
          a ++ "Primary method (World ID) failed.")) := by
  constructor
  · intro appId actionId r status detail ha hb hst
    have hrec : verifyWorldID appId actionId (some r) (.ok (status, detail)) =
        { success := false
          message := "World ID Verification Failed: " ++
            jsOr detail ("Verification failed with status " ++ toString status)
          remoteCalled := true } := by
      unfold verifyWorldID
      simp [ha, hb, hst]
    rw [hrec]
    refine ⟨rfl, rfl, ?_⟩
    intro d hd
    subst hd
    by_cases hde : (d == "") = true
    · have hd0 : d = "" := by simpa using hde
      subst hd0
      exact ⟨"World ID Verification Failed: " ++ jsOr (some "")
        ("Verification failed with status " ++ toString status), "", by simp⟩
    · refine ⟨"World ID Verification Failed: ", "", ?_⟩
      simp [jsOr, hde]
  · intro c req wr cr hpt hw hc hfail
    have hft := fallback_captcha_of_primary_worldid c hpt
    have hd := dispatchWith_primary_failed_no_fallback c
      (outcomeOf c req wr cr (primaryTagOf c)) (presentOf req (primaryTagOf c))
      (methodNameOf c (primaryTagOf c))
      (outcomeOf c req wr cr (fallbackTagOf c)) (presentOf req (fallbackTagOf c))
      (methodNameOf c (fallbackTagOf c))
      (primaryTagOf c) (fallbackTagOf c)
      (by rw [hpt]; exact hw) (by rw [hft]; exact hc) (by rw [hpt]; exact hfail)
    unfold dispatch
    rw [hd, hpt]
    refine ⟨rfl, rfl, ?_, ?_, ⟨"Verification Failed: ", by decide⟩⟩
    · simp [methodNameOf]
    · simp [methodNameOf, methodFor]

/-- C6 witness: a 400 from the identity provider with detail invalid proof
yields an adapter failure containing invalid proof, and with no fallback
payload the dispatcher returns the primary-failed 400 tagged world_id. -/
theorem worldid_detail_and_primary_failed_witness :
    (verifyWorldID (some "app_staging_123") (some "verify-human") (some idkA)
      (.ok (400, some "invalid proof"))).success = false ∧
    strContains (verifyWorldID (some "app_staging_123") (some "verify-human") (some idkA)
      (.ok (400, some "invalid proof"))).message "invalid proof" ∧
    (dispatch cfgA reqA (.ok (400, some "invalid proof")) (.error "unused")).1 =
      { status := 400, success := false, message := none
        error := some "Verification Failed: Primary method (World ID) failed."
        method := some "world_id" } := by
  have h1 := worldid_detail_and_primary_failed.1 (some "app_staging_123")
    (some "verify-human") idkA 400 (some "invalid proof") (by decide) (by decide) (by decide)
  have h2 := worldid_detail_and_primary_failed.2 cfgA reqA
    (.ok (400, some "invalid proof")) (.error "unused")
    (by decide) (by decide) (by decide) (by decide)
  exact ⟨h1.1, h1.2.2 "invalid proof" rfl, by decide⟩

/-- C7: with a falsy token or a falsy secret key, both CAPTCHA adapters
fail locally without contacting the siteverify endpoint. -/
theorem captcha_local_failure_no_remote (secret token : Option String)
    (remote : Except String SiteverifyBody)
    (h : optTruthy token = false ∨ optTruthy secret = false) :
    (verifyRecaptcha secret token remote).remoteCalled = false ∧
    (verifyRecaptcha secret token remote).success = false ∧
    (verifyHCaptcha secret token remote).remoteCalled = false ∧
    (verifyHCaptcha secret token remote).success = false := by
  cases htv : optTruthy token with
  | false => simp [verifyRecaptcha, verifyHCaptcha, htv]
  | true =>
    have hs : optTruthy secret = false := by
      rcases h with h | h
      · rw [htv] at h
        simp at h
      · exact h
    simp [verifyRecaptcha, verifyHCaptcha, htv, hs]

/-- C7 witness: an empty token with a configured secret, and separately an
unset secret with a real token, both fail locally with no remote call. -/
theorem captcha_local_failure_no_remote_witness :
    ((verifyRecaptcha (some "rc-secret") (some "") (.ok ⟨.bool true, none⟩)).remoteCalled = false ∧
     (verifyRecaptcha (some "rc-secret") (some "") (.ok ⟨.bool true, none⟩)).success = false ∧
     (verifyHCaptcha (some "rc-secret") (some "") (.ok ⟨.bool true, none⟩)).remoteCalled = false ∧
     (verifyHCaptcha (some "rc-secret") (some "") (.ok ⟨.bool true, none⟩)).success = false) ∧
    ((verifyRecaptcha none (some "tok-1") (.ok ⟨.bool true, none⟩)).remoteCalled = false ∧
     (verifyRecaptcha none (some "tok-1") (.ok ⟨.bool true, none⟩)).success = false ∧
     (verifyHCaptcha none (some "tok-1") (.ok ⟨.bool true, none⟩)).remoteCalled = false ∧
     (verifyHCaptcha none (some "tok-1") (.ok ⟨.bool true, none⟩)).success = false) := by
  exact ⟨captcha_local_failure_no_remote (some "rc-secret") (some "")
      (.ok ⟨.bool true, none⟩) (Or.inl (by decide)),
    captcha_local_failure_no_remote none (some "tok-1")
      (.ok ⟨.bool true, none⟩) (Or.inr (by decide))⟩

/-- C8 counterexample: a siteverify body whose success field is the truthy
string yes, not the boolean true, is reported as success by the reCAPTCHA
adapter, refuting the claim that both adapters report success exactly when
the field is strictly equal to true. -/
theorem captcha_strict_success_cex :
    (verifyRecaptcha (some "rc-secret") (some "tok-1")
      (.ok { success := JsValue.str "yes", errorCodes := none })).success = true ∧
    (JsValue.str "yes") ≠ JsValue.bool true := by
  decide

/-- C8 (amended): the hCaptcha adapter reports success exactly when the
success field is strictly the boolean true, while the reCAPTCHA adapter
reports success exactly when the field is truthy; in the failure case both
build the message by joining the error-codes array, defaulting to the
single entry unknown when the array is absent, so the message then
contains unknown. -/
theorem captcha_success_semantics (secret token : Option String) (body : SiteverifyBody)
    (ht : optTruthy token = true) (hs : optTruthy secret = true) :
    ((verifyRecaptcha secret token (.ok body)).success = body.success.truthy) ∧
    ((verifyHCaptcha secret token (.ok body)).success = (body.success == JsValue.bool true)) ∧
    (body.success.truthy = false →
      (verifyRecaptcha secret token (.ok body)).message =
        "reCAPTCHA Verification Failed: " ++
          String.intercalate ", " (body.errorCodes.getD ["unknown"])) ∧
    ((body.success == JsValue.bool true) = false →
      (verifyHCaptcha secret token (.ok body)).message =
        "hCaptcha Verification Failed: " ++
          String.intercalate ", " (body.errorCodes.getD ["unknown"])) ∧
    (body.errorCodes = none → body.success.truthy = false →
      strContains (verifyRecaptcha secret token (.ok body)).message "unknown") := by
  refine ⟨?_, ?_, ?_, ?_, ?_⟩
  · cases hb : body.success.truthy <;> simp [verifyRecaptcha, ht, hs, hb]
  · cases hb : (body.success == JsValue.bool true) <;> simp [verifyHCaptcha, ht, hs, hb]
  · intro hb
    simp [verifyRecaptcha, ht, hs, hb]
  · intro hb
    simp [verifyHCaptcha, ht, hs, hb]
  · intro he hb
    have hmsg : (verifyRecaptcha secret token (.ok body)).message =
        "reCAPTCHA Verification Failed: " ++ "unknown" := by
      simp [verifyRecaptcha, ht, hs, hb, he, String.intercalate]
      rfl
    rw [hmsg]
    exact ⟨"reCAPTCHA Verification Failed: ", "", by simp⟩

/-- C8 amended witness: a strict boolean false body fails on both
adapters, and with no error-codes array the failure message contains
unknown. -/
theorem captcha_success_semantics_witness :
    (verifyRecaptcha (some "rc-secret") (some "tok-1")
      (.ok { success := JsValue.bool false, errorCodes := none })).success = false ∧
    (verifyHCaptcha (some "rc-secret") (some "tok-1")
      (.ok { success := JsValue.bool false, errorCodes := none })).success = false ∧
    strContains (verifyRecaptcha (some "rc-secret") (some "tok-1")
      (.ok { success := JsValue.bool false, errorCodes := none })).message "unknown" := by
  have h := captcha_success_semantics (some "rc-secret") (some "tok-1")
    { success := JsValue.bool false, errorCodes := none } (by decide) (by decide)
  exact ⟨h.1.trans (by decide), h.2.1.trans (by decide), h.2.2.2.2 rfl (by decide)⟩

/-- A truthy payload pair refutes the early-return condition of the
reconciler call. -/
theorem payload_cond_of_truthy (payload : ClientPayload)
    (hpay : (payload.idkit_response.isSome || optTruthy payload.captcha_token) = true) :
    ¬(payload.idkit_response = none ∧ optTruthy payload.captcha_token = false) := by
  rintro ⟨h1, h2⟩
  rw [h1, h2] at hpay
  simp at hpay

/-- A falsy payload pair establishes the early-return condition of the
reconciler call. -/
theorem payload_cond_of_falsy (payload : ClientPayload)
    (hpay : (payload.idkit_response.isSome || optTruthy payload.captcha_token) = false) :
    payload.idkit_response = none ∧ optTruthy payload.captcha_token = false := by
  constructor
  · cases hik : payload.idkit_response with
    | none => rfl
    | some r =>
      rw [hik] at hpay
      simp at hpay
  · cases hct : optTruthy payload.captcha_token with
    | false => rfl
    | true =>
      rw [hct] at hpay
      simp at hpay

/-- C9: in the reconciler, isVerified transitions from false to true only
on arrival of an HTTP-ok success response; on that path the
verificationMethod is set from the response method (with the source
fallback inference for a falsy method field) and error is left null; and
every HTTP-ok success response with a nonempty payload produces exactly
that transition. -/
theorem reconciler_verified_only_on_success (cp : String) (payload : ClientPayload)
    (fetchOutcome : Except String (Nat × ApiVerificationResponse)) (s : ClientState) :
    (∀ (status : Nat) (result : ApiVerificationResponse),
       fetchOutcome = .ok (status, result) →
       (payload.idkit_response.isSome || optTruthy payload.captcha_token) = true →
       200 ≤ status → status < 300 → result.success = true →
       ((callVerificationApi cp payload fetchOutcome s).1.isVerified = true ∧
        (callVerificationApi cp payload fetchOutcome s).1.error = none ∧
        (callVerificationApi cp payload fetchOutcome s).1.verificationMethod =
          jsOr result.method (if payload.idkit_response.isSome then "world_id" else cp) ∧
        (callVerificationApi cp payload fetchOutcome s).2.success = true)) ∧
    (s.isVerified = false →
     (callVerificationApi cp payload fetchOutcome s).1.isVerified = true →
     ∃ (status : Nat) (result : ApiVerificationResponse),
       fetchOutcome = .ok (status, result) ∧ 200 ≤ status ∧ status < 300 ∧
       result.success = true ∧
       (callVerificationApi cp payload fetchOutcome s).1.error = none) := by
  constructor
  · intro status result hfo hpay h1 h2 hsucc
    subst hfo
    have hcond := payload_cond_of_truthy payload hpay
    simp [callVerificationApi, hcond, h1, h2, hsucc]
  · intro hsv hv
    by_cases hp : payload.idkit_response = none ∧ optTruthy payload.captcha_token = false
    · simp [callVerificationApi, hp, hsv] at hv
    · cases fetchOutcome with
      | error m => simp [callVerificationApi, hp] at hv
      | ok p =>
        obtain ⟨status, result⟩ := p
        by_cases hc : (200 ≤ status ∧ status < 300) ∧ result.success = true
        · exact ⟨status, result, rfl, hc.1.1, hc.1.2, hc.2,
            by simp [callVerificationApi, hp, hc]⟩
        · simp [callVerificationApi, hp, hc] at hv

/-- C9 witness: from the unverified initial state, an HTTP 200 success
response tagged world_id flips isVerified to true, sets the method from
the response and leaves error null. -/
theorem reconciler_verified_only_on_success_witness :
    (callVerificationApi "recaptcha" { idkit_response := some idkA, captcha_token := none }
      (.ok (200, { success := true, message := some "ok", error := none, method := some "world_id" }))
      { isVerified := false, isVerifying := false, verificationMethod := "none", error := none }).1.isVerified = true ∧
    (callVerificationApi "recaptcha" { idkit_response := some idkA, captcha_token := none }
      (.ok (200, { success := true, message := some "ok", error := none, method := some "world_id" }))
      { isVerified := false, isVerifying := false, verificationMethod := "none", error := none }).1.error = none ∧
    (callVerificationApi "recaptcha" { idkit_response := some idkA, captcha_token := none }
      (.ok (200, { success := true, message := some "ok", error := none, method := some "world_id" }))
      { isVerified := false, isVerifying := false, verificationMethod := "none", error := none }).1.verificationMethod = "world_id" ∧
    (callVerificationApi "recaptcha" { idkit_response := some idkA, captcha_token := none }
      (.ok (200, { success := true, message := some "ok", error := none, method := some "world_id" }))
      { isVerified := false, isVerifying := false, verificationMethod := "none", error := none }).2.success = true := by
  have h := (reconciler_verified_only_on_success "recaptcha"
    { idkit_response := some idkA, captcha_token := none }
    (.ok (200, { success := true, message := some "ok", error := none, method := some "world_id" }))
    { isVerified := false, isVerifying := false, verificationMethod := "none", error := none }).1
    200 { success := true, message := some "ok", error := none, method := some "world_id" }
    rfl (by decide) (by decide) (by decide) rfl
  exact ⟨h.1, h.2.1, by decide, h.2.2.2⟩

/-- C10 counterexample: starting from a previously verified state, a call
with no payload at all returns a failure result yet leaves isVerified true
and verificationMethod unchanged, refuting the claim that every failure
path leaves isVerified false and verificationMethod none. -/
theorem reconciler_failure_path_cex :
    (callVerificationApi "recaptcha" { idkit_response := none, captcha_token := none }
      (.error "unused")
      { isVerified := true, isVerifying := false, verificationMethod := "world_id", error := none }).2.success = false ∧
    (callVerificationApi "recaptcha" { idkit_response := none, captcha_token := none }
      (.error "unused")
      { isVerified := true, isVerifying := false, verificationMethod := "world_id", error := none }).1.isVerified = true ∧
    (callVerificationApi "recaptcha" { idkit_response := none, captcha_token := none }
      (.error "unused")
      { isVerified := true, isVerifying := false, verificationMethod := "world_id", error := none }).1.verificationMethod = "world_id" := by
  decide

/-- C10 (amended): every completed execution of the reconciler call leaves
isVerifying false; on every failure path that reaches the API call (a
failure response or a thrown error) it additionally leaves isVerified
false, verificationMethod none and error set to the failure message; but
the early no-payload failure path only sets error and clears isVerifying,
leaving isVerified and verificationMethod unchanged from the prior
state. -/
theorem reconciler_terminal_state (cp : String) (payload : ClientPayload)
    (fetchOutcome : Except String (Nat × ApiVerificationResponse)) (s : ClientState) :
    ((callVerificationApi cp payload fetchOutcome s).1.isVerifying = false) ∧
    ((payload.idkit_response.isSome || optTruthy payload.captcha_token) = true →
      (callVerificationApi cp payload fetchOutcome s).2.success = false →
      ((callVerificationApi cp payload fetchOutcome s).1.isVerified = false ∧
       (callVerificationApi cp payload fetchOutcome s).1.verificationMethod = "none" ∧
       (callVerificationApi cp payload fetchOutcome s).1.error =
         some (callVerificationApi cp payload fetchOutcome s).2.data)) ∧
    ((payload.idkit_response.isSome || optTruthy payload.captcha_token) = false →
      ((callVerificationApi cp payload fetchOutcome s).1.error =
         some "No verification payload (idkit_response or captcha_token) provided to callVerificationApi" ∧
       (callVerificationApi cp payload fetchOutcome s).1.isVerified = s.isVerified ∧
       (callVerificationApi cp payload fetchOutcome s).1.verificationMethod = s.verificationMethod ∧
       (callVerificationApi cp payload fetchOutcome s).2.success = false)) := by
  refine ⟨?_, ?_, ?_⟩
  · by_cases hp : payload.idkit_response = none ∧ optTruthy payload.captcha_token = false
    · simp [callVerificationApi, hp]
    · cases fetchOutcome with
      | error m => simp [callVerificationApi, hp]
      | ok p =>
        obtain ⟨status, result⟩ := p
        by_cases hc : (200 ≤ status ∧ status < 300) ∧ result.success = true <;>
          simp [callVerificationApi, hp, hc]
  · intro hpay hfail
    have hcond := payload_cond_of_truthy payload hpay
    cases fetchOutcome with
    | error m => simp [callVerificationApi, hcond]
    | ok p =>
      obtain ⟨status, result⟩ := p
      by_cases hc : (200 ≤ status ∧ status < 300) ∧ result.success = true
      · simp [callVerificationApi, hcond, hc] at hfail
      · simp [callVerificationApi, hcond, hc]
  · intro hpay
    have hcond := payload_cond_of_falsy payload hpay
    simp [callVerificationApi, hcond.1, hcond.2]

/-- C10 amended witness: a failure response through the API call leaves
the container unverified, with method none, error set to the failure
message, and isVerifying cleared. -/
theorem reconciler_terminal_state_witness :
    (callVerificationApi "recaptcha" { idkit_response := none, captcha_token := some "tok-1" }
      (.ok (400, { success := false, message := none, error := some "Verification Failed: bad", method := none }))
      { isVerified := false, isVerifying := false, verificationMethod := "none", error := none }).1.isVerifying = false ∧
    ((callVerificationApi "recaptcha" { idkit_response := none, captcha_token := some "tok-1" }
      (.ok (400, { success := false, message := none, error := some "Verification Failed: bad", method := none }))
      { isVerified := false, isVerifying := false, verificationMethod := "none", error := none }).1.isVerified = false ∧
     (callVerificationApi "recaptcha" { idkit_response := none, captcha_token := some "tok-1" }
      (.ok (400, { success := false, message := none, error := some "Verification Failed: bad", method := none }))
      { isVerified := false, isVerifying := false, verificationMethod := "none", error := none }).1.verificationMethod = "none" ∧
     (callVerificationApi "recaptcha" { idkit_response := none, captcha_token := some "tok-1" }
      (.ok (400, { success := false, message := none, error := some "Verification Failed: bad", method := none }))
      { isVerified := false, isVerifying := false, verificationMethod := "none", error := none }).1.error =
       some (callVerificationApi "recaptcha" { idkit_response := none, captcha_token := some "tok-1" }
        (.ok (400, { success := false, message := none, error := some "Verification Failed: bad", method := none }))
        { isVerified := false, isVerifying := false, verificationMethod := "none", error := none }).2.data) := by
  have h := reconciler_terminal_state "recaptcha"
    { idkit_response := none, captcha_token := some "tok-1" }
    (.ok (400, { success := false, message := none, error := some "Verification Failed: bad", method := none }))
    { isVerified := false, isVerifying := false, verificationMethod := "none", error := none }
  exact ⟨h.1, h.2.1 (by decide) (by decide)⟩

end WidCaptcha
